import Mathlib

/-!
Verification development for the sting-sense-map query/aggregation service.

The definitions below are shallow embeddings of the JavaScript source:

* `simulateChunking`, `estimateTokens`, `estimateTokensLegacy`, `buildPrompt`,
  the prompt templates and `calculateTokensForQuestion`'s multi-chunk prompt
  construction come from the raw-mode token-calculator script
  (`calculate_raw_mode_tokens.js`).
* `validateRequest`, `generateCacheKey` and the `/api/generate-summary` and
  `/api/generate-insight` handlers come from `server.js`.
* `legacyGenerateSummary` embeds the older `/api/generate-summary` handler
  that returns a `details` field on failures.

JavaScript strings are modelled as `List Char`; the in-memory response cache
(a JS `Map`) is modelled as an association list where `set` prepends and
`get` returns the first (most recent) binding for a key.  JavaScript number
arithmetic on the small quantities involved (string lengths, chunk counts)
is modelled exactly over `Nat`/`Rat`.
-/

namespace StingSense

/-! ### Chunking engine (`simulateChunking` in the token-calculator script) -/

/-- `RAW_SINGLE_REQUEST_CHAR_LIMIT = 11000` from the source. -/
def RAW_SINGLE_REQUEST_CHAR_LIMIT : Nat := 11000

/-- `const chunkSize = Math.floor(RAW_SINGLE_REQUEST_CHAR_LIMIT * 0.8)`.
`11000 * 0.8` is exactly `8800` in IEEE double arithmetic, so the floor is
`8800 = 11000 * 8 / 10`. -/
def chunkSize : Nat := RAW_SINGLE_REQUEST_CHAR_LIMIT * 8 / 10

/-- The `while (currentPos < fullDataString.length)` loop of
`simulateChunking`: repeatedly slice off `substring(currentPos,
currentPos + size)`.  `splitLoop k` slices pieces of `k + 1` characters;
the source's chunk size `size ≥ 1` corresponds to `k = size - 1`. -/
def splitLoop (k : Nat) : List Char → List (List Char)
  | [] => []
  | c :: cs => (c :: cs.take k) :: splitLoop k (cs.drop k)
  termination_by l => l.length
  decreasing_by simp [List.length_drop]; omega

/-- Slicing a string into consecutive pieces of `size` characters
(the last piece may be shorter), as `substring(pos, pos + size)` does. -/
def chunksOf (size : Nat) (s : List Char) : List (List Char) :=
  splitLoop (size - 1) s

/-- The record returned by `simulateChunking`. -/
structure ChunkingResult where
  chunks : List (List Char)
  isSingleRequest : Bool
  totalChars : Nat
  deriving Repr, DecidableEq

/-- `simulateChunking` from the token-calculator script.  The source first
compresses the dataset and serializes it (`fullDataString =
JSON.stringify(compressed, null, 2)`); every branch and all chunk
arithmetic afterwards depend only on that string, which this embedding
takes as its input `s`. -/
def simulateChunking (s : List Char) : ChunkingResult :=
  if s.length ≤ RAW_SINGLE_REQUEST_CHAR_LIMIT then
    { chunks := [s], isSingleRequest := true, totalChars := s.length }
  else
    { chunks := chunksOf chunkSize s, isSingleRequest := false, totalChars := s.length }

theorem splitLoop_flatten (k : Nat) :
    ∀ (n : Nat) (s : List Char), s.length ≤ n → (splitLoop k s).flatten = s := by
  intro n
  induction n with
  | zero =>
    intro s h
    cases s with
    | nil => simp [splitLoop]
    | cons c cs => simp at h
  | succ n ih =>
    intro s h
    cases s with
    | nil => simp [splitLoop]
    | cons c cs =>
      rw [splitLoop]
      simp only [List.flatten_cons, List.cons_append]
      rw [ih (cs.drop k)
        (by simp only [List.length_drop]; simp only [List.length_cons] at h; omega)]
      simp [List.take_append_drop]

theorem splitLoop_length (k : Nat) :
    ∀ (n : Nat) (s : List Char), s.length ≤ n →
      (splitLoop k s).length = (s.length + k) / (k + 1) := by
  intro n
  induction n with
  | zero =>
    intro s h
    cases s with
    | nil => simp [splitLoop, Nat.div_eq_of_lt (Nat.lt_succ_self k)]
    | cons c cs => simp at h
  | succ n ih =>
    intro s h
    cases s with
    | nil => simp [splitLoop, Nat.div_eq_of_lt (Nat.lt_succ_self k)]
    | cons c cs =>
      rw [splitLoop]
      simp only [List.length_cons]
      rw [ih (cs.drop k)
        (by simp only [List.length_drop]; simp only [List.length_cons] at h; omega)]
      simp only [List.length_drop]
      rcases Nat.le_total k cs.length with hk | hk
      · have h1 : cs.length - k + k = cs.length := Nat.sub_add_cancel hk
        have h2 : cs.length + 1 + k = cs.length + (k + 1) := by omega
        rw [h1, h2, Nat.add_div_right _ (Nat.succ_pos k)]
      · have h1 : cs.length - k = 0 := Nat.sub_eq_zero_of_le hk
        have h2 : (cs.length + 1 + k) / (k + 1) = 1 :=
          Nat.div_eq_of_lt_le (by omega) (by omega)
        rw [h1, h2, Nat.zero_add, Nat.div_eq_of_lt (Nat.lt_succ_self k)]

theorem chunksOf_flatten (size : Nat) (s : List Char) : (chunksOf size s).flatten = s :=
  splitLoop_flatten (size - 1) s.length s (Nat.le_refl _)

theorem chunksOf_length (size : Nat) (s : List Char) (h : 1 ≤ size) :
    (chunksOf size s).length = (s.length + (size - 1)) / size := by
  have := splitLoop_length (size - 1) s.length s (Nat.le_refl _)
  rw [chunksOf, this]
  congr 1
  omega

/-- C1: the chunking engine compares the serialized length against the
11000-character single-request budget; at or below the budget it takes the
single-request path with exactly one chunk equal to the whole
serialization, and above it it produces exactly
`ceil(serializedLength / 8800)` chunks, where `8800 = 11000 × 0.8` is the
budget times the 0.8 safety factor (for `L > 0`,
`(L + 8799) / 8800` is the natural-number ceiling of `L / 8800`). -/
theorem simulateChunking_spec (s : List Char) :
    (s.length ≤ RAW_SINGLE_REQUEST_CHAR_LIMIT →
      (simulateChunking s).isSingleRequest = true ∧
      (simulateChunking s).chunks = [s]) ∧
    (RAW_SINGLE_REQUEST_CHAR_LIMIT < s.length →
      (simulateChunking s).isSingleRequest = false ∧
      (simulateChunking s).chunks.length = (s.length + 8799) / 8800) := by
  constructor
  · intro h
    simp [simulateChunking, h]
  · intro h
    have hns : ¬ s.length ≤ RAW_SINGLE_REQUEST_CHAR_LIMIT := by omega
    have hcs : chunkSize = 8800 := by norm_num [chunkSize, RAW_SINGLE_REQUEST_CHAR_LIMIT]
    constructor
    · simp [simulateChunking, hns]
    · simp only [simulateChunking, hns, if_false]
      rw [chunksOf_length chunkSize s (by omega), hcs]

/-- Witness for C1 at concrete inputs: a 2-character serialization takes
the single-request path with one chunk, and an 11001-character
serialization is split into `ceil(11001 / 8800) = 2` chunks. -/
theorem simulateChunking_spec_witness :
    ((simulateChunking ('a' :: 'b' :: [])).isSingleRequest = true ∧
      (simulateChunking ('a' :: 'b' :: [])).chunks = [('a' :: 'b' :: [])]) ∧
    ((simulateChunking (List.replicate 11001 'a')).isSingleRequest = false ∧
      (simulateChunking (List.replicate 11001 'a')).chunks.length = 2) := by
  constructor
  · exact (simulateChunking_spec ('a' :: 'b' :: [])).1 (by norm_num [RAW_SINGLE_REQUEST_CHAR_LIMIT])
  · have h := (simulateChunking_spec (List.replicate 11001 'a')).2
      (by norm_num [RAW_SINGLE_REQUEST_CHAR_LIMIT])
    refine ⟨h.1, ?_⟩
    rw [h.2]
    norm_num

/-- C2: above the budget, concatenating the produced chunks in order
reproduces the serialized dataset exactly — the split loses no data and
adds none. -/
theorem simulateChunking_roundTrip (s : List Char)
    (h : RAW_SINGLE_REQUEST_CHAR_LIMIT < s.length) :
    (simulateChunking s).chunks.flatten = s := by
  have hns : ¬ s.length ≤ RAW_SINGLE_REQUEST_CHAR_LIMIT := by omega
  simp only [simulateChunking, hns, if_false]
  exact chunksOf_flatten chunkSize s

/-- Witness for C2 at a concrete over-budget input. -/
theorem simulateChunking_roundTrip_witness :
    (simulateChunking (List.replicate 11001 'a')).chunks.flatten = List.replicate 11001 'a' :=
  simulateChunking_roundTrip (List.replicate 11001 'a')
    (by norm_num [RAW_SINGLE_REQUEST_CHAR_LIMIT])

/-! ### Chunk hard cap (modelled from the spec) -/

/-- Modelled from the spec: the hard cap on the number of chunks
("Hard cap on number of chunks (configurable, e.g., 20)"). -/
def MAX_CHUNKS : Nat := 20

/-- Result of the capped chunking engine: the chunk list plus the
truncation warning flag. -/
structure CappedChunking where
  chunks : List (List Char)
  truncated : Bool
  deriving Repr, DecidableEq

/-- Modelled from the spec: the production chunking engine
`splitFeaturesForRawMode` is not under `src/` — the token-calculator
script only carries an explicitly "simplified version" of it
(`simulateChunking`) without the cap.  Per the spec, the engine
partitions the over-budget serialization into chunks of 80% of the
single-request limit, and "exceeding the cap truncates the dataset and
surfaces a truncation warning rather than producing unbounded chunk
counts". -/
def splitFeaturesForRawMode (s : List Char) : CappedChunking :=
  if s.length ≤ RAW_SINGLE_REQUEST_CHAR_LIMIT then
    { chunks := [s], truncated := false }
  else
    let cs := chunksOf chunkSize s
    if cs.length ≤ MAX_CHUNKS then
      { chunks := cs, truncated := false }
    else
      { chunks := cs.take MAX_CHUNKS, truncated := true }

/-- C3: the chunking engine never produces more than `MAX_CHUNKS = 20`
chunks; whenever the dataset would require more chunks than the cap, the
dataset is truncated to the first 20 chunks and the truncation warning
flag is set instead of producing an unbounded chunk count. -/
theorem splitFeaturesForRawMode_cap (s : List Char) :
    (splitFeaturesForRawMode s).chunks.length ≤ MAX_CHUNKS ∧
    (RAW_SINGLE_REQUEST_CHAR_LIMIT < s.length →
      MAX_CHUNKS < (chunksOf chunkSize s).length →
      (splitFeaturesForRawMode s).truncated = true ∧
      (splitFeaturesForRawMode s).chunks = (chunksOf chunkSize s).take MAX_CHUNKS) := by
  constructor
  · by_cases h1 : s.length ≤ RAW_SINGLE_REQUEST_CHAR_LIMIT
    · simp [splitFeaturesForRawMode, h1, MAX_CHUNKS]
    · by_cases h2 : (chunksOf chunkSize s).length ≤ MAX_CHUNKS
      · simp [splitFeaturesForRawMode, h1, h2]
      · simp [splitFeaturesForRawMode, h1, h2]
  · intro hbig hover
    have h1 : ¬ s.length ≤ RAW_SINGLE_REQUEST_CHAR_LIMIT := by omega
    have h2 : ¬ (chunksOf chunkSize s).length ≤ MAX_CHUNKS := by omega
    simp [splitFeaturesForRawMode, h1, h2]

/-- Witness for C3: a 176001-character serialization would need
`ceil(176001 / 8800) = 21 > 20` chunks, so the capped engine truncates to
20 chunks and raises the warning flag. -/
theorem splitFeaturesForRawMode_cap_witness :
    (splitFeaturesForRawMode (List.replicate 176001 'a')).chunks.length ≤ MAX_CHUNKS ∧
    (splitFeaturesForRawMode (List.replicate 176001 'a')).truncated = true := by
  have hlen : (chunksOf chunkSize (List.replicate 176001 'a')).length = 21 := by
    rw [chunksOf_length chunkSize _ (by norm_num [chunkSize, RAW_SINGLE_REQUEST_CHAR_LIMIT])]
    norm_num [chunkSize, RAW_SINGLE_REQUEST_CHAR_LIMIT]
  have h := splitFeaturesForRawMode_cap (List.replicate 176001 'a')
  refine ⟨h.1, (h.2 (by norm_num [RAW_SINGLE_REQUEST_CHAR_LIMIT]) ?_).1⟩
  rw [hlen]
  norm_num [MAX_CHUNKS]

/-! ### Token estimators (`estimateTokens` / `estimateTokensLegacy`) -/

/-- `estimateTokens` from the token-calculator script:
`if (!text) return 0; return Math.ceil(text.length / 4)`.
The input is `none` when the argument is absent (`undefined`/`null`);
the empty string is falsy in JS, so it also returns 0.
`(L + 3) / 4` in `Nat` is `Math.ceil(L / 4)`. -/
def estimateTokens : Option (List Char) → Nat
  | none => 0
  | some s => if s.isEmpty then 0 else (s.length + 3) / 4

/-- `estimateTokensLegacy` from the token-calculator script:
`if (!text) return 0; return Math.ceil(text.length * 0.35)` with
`TOKENS_PER_CHAR_ESTIMATE_LEGACY = 0.35`.  The real-number product
`L × 0.35 = 7L / 20` is modelled exactly; `(7L + 19) / 20` in `Nat` is
its ceiling. -/
def estimateTokensLegacy : Option (List Char) → Nat
  | none => 0
  | some s => if s.isEmpty then 0 else (7 * s.length + 19) / 20

/-- Natural-number ceiling division `(a + b - 1) / b` agrees with the
rational ceiling `⌈a / b⌉`. -/
theorem ceil_natCast_div (a b : Nat) (hb : 0 < b) :
    ⌈(a : ℚ) / (b : ℚ)⌉ = (((a + b - 1) / b : Nat) : ℤ) := by
  have hbq : (0 : ℚ) < (b : ℚ) := by exact_mod_cast hb
  set k := (a + b - 1) / b with hk
  have hdm := Nat.div_add_mod (a + b - 1) b
  have hmod : (a + b - 1) % b < b := Nat.mod_lt _ hb
  rw [← hk] at hdm
  have hub : a ≤ k * b := by
    rw [Nat.mul_comm]
    set m := b * k with hm
    omega
  have hlb : k * b < a + b := by
    rw [Nat.mul_comm]
    set m := b * k with hm
    omega
  rw [Int.ceil_eq_iff]
  constructor
  · have hlbq : (k : ℚ) * b < a + b := by exact_mod_cast hlb
    rw [lt_div_iff hbq]
    push_cast
    linarith
  · rw [div_le_iff hbq]
    exact_mod_cast hub

/-- C10: for every string the legacy estimator returns
`⌈length × 0.35⌉ = ⌈7·length / 20⌉` and the modern estimator returns
`⌈length / 4⌉` (stated via the rational ceiling), the legacy estimate
dominates the modern one on every input, and both return 0 on missing or
empty input. -/
theorem tokenEstimators_spec :
    (∀ s : List Char, ¬ s.isEmpty →
      (estimateTokens (some s) : ℤ) = ⌈(s.length : ℚ) / 4⌉ ∧
      (estimateTokensLegacy (some s) : ℤ) = ⌈(s.length : ℚ) * (35 / 100)⌉) ∧
    (∀ t : Option (List Char), estimateTokens t ≤ estimateTokensLegacy t) ∧
    estimateTokens none = 0 ∧ estimateTokensLegacy none = 0 ∧
    estimateTokens (some []) = 0 ∧ estimateTokensLegacy (some []) = 0 := by
  refine ⟨?_, ?_, rfl, rfl, rfl, rfl⟩
  · intro s hs
    constructor
    · rw [estimateTokens, if_neg hs]
      have h4 : ((4 : Nat) : ℚ) = (4 : ℚ) := by norm_num
      rw [← h4, ceil_natCast_div s.length 4 (by norm_num)]
      norm_num
    · rw [estimateTokensLegacy, if_neg hs]
      have heq : (s.length : ℚ) * (35 / 100) = ((7 * s.length : Nat) : ℚ) / ((20 : Nat) : ℚ) := by
        push_cast
        ring
      rw [heq, ceil_natCast_div (7 * s.length) 20 (by norm_num)]
      norm_num
  · intro t
    match t with
    | none => exact Nat.le_refl 0
    | some s =>
      by_cases hs : s.isEmpty
      · simp [estimateTokens, estimateTokensLegacy, hs]
      · simp only [estimateTokens, estimateTokensLegacy, if_neg hs]
        omega

/-- Witness for C10 at a concrete 10-character string:
`⌈10/4⌉ = 3` and `⌈10 × 0.35⌉ = 4`. -/
theorem tokenEstimators_spec_witness :
    ((estimateTokens (some (List.replicate 10 'a')) : ℤ)
        = ⌈((List.replicate 10 'a').length : ℚ) / 4⌉ ∧
      (estimateTokensLegacy (some (List.replicate 10 'a')) : ℤ)
        = ⌈((List.replicate 10 'a').length : ℚ) * (35 / 100)⌉) ∧
    estimateTokens (some (List.replicate 10 'a')) = 3 ∧
    estimateTokensLegacy (some (List.replicate 10 'a')) = 4 :=
  ⟨tokenEstimators_spec.1 (List.replicate 10 'a') (by decide), by decide, by decide⟩

/-! ### Prompt templates (`buildPrompt` in the token-calculator script)

`buildPrompt` performs `template.replace(/{{(.*?)}}/g, cb)` where the
callback trims the captured key and substitutes
`replacements[key]` when the key is an own property, else the empty
string.  The lazy capture `(.*?)` cannot cross a newline (JS `.`), so a
placeholder runs from `{{` to the first following `}}` on the same line.
-/

/-- The `{` character (written via its code point). -/
def openBrace : Char := Char.ofNat 123

/-- The `}` character (written via its code point). -/
def closeBrace : Char := Char.ofNat 125

/-- The whitespace characters removed by JS `String.prototype.trim`
(the ASCII ones, which are the only ones arising here). -/
def isJsSpace (c : Char) : Bool :=
  c = ' ' || c = '\t' || c = '\n' || c = '\r'

/-- JS `s.trim()`: strip leading and trailing whitespace. -/
def jsTrim (s : List Char) : List Char :=
  ((s.dropWhile isJsSpace).reverse.dropWhile isJsSpace).reverse

/-- Scan for the first `}}` (the lazy `(.*?)}}` of the template regex),
failing at a newline (JS `.` does not match line terminators).  Returns
the captured key and the remainder after the `}}`. -/
def findClose : List Char → Option (List Char × List Char)
  | b1 :: b2 :: rest =>
    if b1 = closeBrace ∧ b2 = closeBrace then some ([], rest)
    else if b1 = '\n' ∨ b1 = '\r' then none
    else
      match findClose (b2 :: rest) with
      | some (inner, r) => some (b1 :: inner, r)
      | none => none
  | _ => none

theorem findClose_length :
    ∀ (l inner rest : List Char), findClose l = some (inner, rest) →
      inner.length + 2 + rest.length = l.length := by
  intro l
  induction l with
  | nil => intro inner rest h; simp [findClose] at h
  | cons b1 t ih =>
    intro inner rest h
    cases t with
    | nil => simp [findClose] at h
    | cons b2 r0 =>
      rw [findClose] at h
      by_cases hbb : b1 = closeBrace ∧ b2 = closeBrace
      · rw [if_pos hbb] at h
        simp only [Option.some.injEq, Prod.mk.injEq] at h
        obtain ⟨h1, h2⟩ := h
        subst h1; subst h2
        simp only [List.length_nil, List.length_cons]
        omega
      · rw [if_neg hbb] at h
        by_cases hnl : b1 = '\n' ∨ b1 = '\r'
        · rw [if_pos hnl] at h
          exact absurd h (by simp)
        · rw [if_neg hnl] at h
          cases hfc : findClose (b2 :: r0) with
          | none => rw [hfc] at h; simp at h
          | some p =>
            obtain ⟨i0, r1⟩ := p
            rw [hfc] at h
            simp only [Option.some.injEq, Prod.mk.injEq] at h
            obtain ⟨h1, h2⟩ := h
            have hlen := ih i0 r1 hfc
            subst h1; subst h2
            simp only [List.length_cons] at hlen ⊢
            omega

/-- The replace callback: trim the captured key, substitute its mapped
value when present, the empty string otherwise. -/
def substValue (lookup : String → Option (List Char)) (inner : List Char) : List Char :=
  (lookup (String.mk (jsTrim inner))).getD []

/-- For a key that trimming leaves unchanged, the callback substitutes
the map entry for exactly that key (or the empty string when absent). -/
theorem substValue_key (lookup : String → Option (List Char)) (k : String)
    (hk : jsTrim k.data = k.data) :
    substValue lookup k.data = (lookup k).getD [] := by
  rw [substValue, hk]

/-- `template.replace(/{{(.*?)}}/g, cb)`: scan left to right; at each
`{{`, lazily find the nearest `}}` on the same line, substitute the
trimmed key; when no close exists the `{{` stays literal and scanning
resumes one character later, exactly as the regex engine advances. -/
def renderTemplate (lookup : String → Option (List Char)) : List Char → List Char
  | [] => []
  | [c] => [c]
  | c1 :: c2 :: cs =>
    if c1 = openBrace ∧ c2 = openBrace then
      match h : findClose cs with
      | some (inner, rest) => substValue lookup inner ++ renderTemplate lookup rest
      | none => c1 :: renderTemplate lookup (c2 :: cs)
    else c1 :: renderTemplate lookup (c2 :: cs)
  termination_by l => l.length
  decreasing_by
  · have := findClose_length cs _ _ h
    simp only [List.length_cons]
    omega
  · simp only [List.length_cons]
    omega
  · simp only [List.length_cons]
    omega

/-- Unfolding `renderTemplate` when the head is not a placeholder start. -/
theorem renderTemplate_cons2 (lookup : String → Option (List Char))
    (c1 c2 : Char) (cs : List Char) (h : ¬(c1 = openBrace ∧ c2 = openBrace)) :
    renderTemplate lookup (c1 :: c2 :: cs) = c1 :: renderTemplate lookup (c2 :: cs) := by
  rw [renderTemplate, if_neg h]

/-- Unfolding `renderTemplate` at a closed placeholder. -/
theorem renderTemplate_open (lookup : String → Option (List Char))
    (cs inner rest : List Char) (h : findClose cs = some (inner, rest)) :
    renderTemplate lookup (openBrace :: openBrace :: cs)
      = substValue lookup inner ++ renderTemplate lookup rest := by
  rw [renderTemplate, if_pos ⟨rfl, rfl⟩]
  split
  · rename_i i r heq
    rw [h] at heq
    simp only [Option.some.injEq, Prod.mk.injEq] at heq
    obtain ⟨h1, h2⟩ := heq
    rw [h1, h2]
  · rename_i heq
    rw [h] at heq
    exact absurd heq (by simp)

/-- Rendering passes over literal text containing no `{`. -/
theorem renderTemplate_lit (lookup : String → Option (List Char)) :
    ∀ (s t : List Char), openBrace ∉ s →
      renderTemplate lookup (s ++ t) = s ++ renderTemplate lookup t := by
  intro s
  induction s with
  | nil => intro t _; simp
  | cons a s' ih =>
    intro t h
    simp only [List.mem_cons, not_or] at h
    obtain ⟨ha, hs'⟩ := h
    rcases hst : s' ++ t with _ | ⟨b, u⟩
    · obtain ⟨rfl, rfl⟩ := List.append_eq_nil.mp hst
      simp [renderTemplate]
    · rw [List.cons_append, hst,
        renderTemplate_cons2 lookup a b u (by intro hc; exact ha hc.1.symm), ← hst,
        ih t hs', List.cons_append]

/-- `findClose` on a well-formed placeholder body finds exactly the
placeholder name. -/
theorem findClose_name :
    ∀ (n rest : List Char), closeBrace ∉ n → Char.ofNat 10 ∉ n → Char.ofNat 13 ∉ n →
      findClose (n ++ closeBrace :: closeBrace :: rest) = some (n, rest) := by
  intro n
  induction n with
  | nil =>
    intro rest _ _ _
    rw [List.nil_append, findClose, if_pos ⟨rfl, rfl⟩]
  | cons a n' ih =>
    intro rest hc hn hr
    simp only [List.mem_cons, not_or] at hc hn hr
    obtain ⟨ha1, hc'⟩ := hc
    obtain ⟨ha2, hn'⟩ := hn
    obtain ⟨ha3, hr'⟩ := hr
    rcases hst : n' ++ closeBrace :: closeBrace :: rest with _ | ⟨b, u⟩
    · simp at hst
    · rw [List.cons_append, hst, findClose,
        if_neg (by intro hcc; exact ha1 hcc.1.symm),
        if_neg (by
          intro hcc
          rcases hcc with hcc | hcc
          · exact ha2 (by rw [hcc])
          · exact ha3 (by rw [hcc])),
        ← hst, ih rest hc' hn' hr']

/-- A template as the list of its literal runs and `{{name}}`
placeholders. -/
inductive TemplatePiece where
  | lit (s : List Char)
  | hole (key : List Char)
  deriving Repr, DecidableEq

/-- The template string a piece list denotes. -/
def flattenPieces : List TemplatePiece → List Char
  | [] => []
  | .lit s :: ps => s ++ flattenPieces ps
  | .hole n :: ps =>
      openBrace :: openBrace :: (n ++ closeBrace :: closeBrace :: flattenPieces ps)

/-- The substituted text: literal runs verbatim, each placeholder
replaced by its mapped value, the empty string when unmapped. -/
def renderPieces (lookup : String → Option (List Char)) : List TemplatePiece → List Char
  | [] => []
  | .lit s :: ps => s ++ renderPieces lookup ps
  | .hole n :: ps => substValue lookup n ++ renderPieces lookup ps

/-- Well-formedness: literal runs contain no `{`, placeholder keys
contain no `}` and no line terminator. -/
def pieceOK : TemplatePiece → Prop
  | .lit s => openBrace ∉ s
  | .hole n => closeBrace ∉ n ∧ Char.ofNat 10 ∉ n ∧ Char.ofNat 13 ∉ n

instance : DecidablePred pieceOK := fun p =>
  match p with
  | .lit s => inferInstanceAs (Decidable (openBrace ∉ s))
  | .hole n =>
      inferInstanceAs (Decidable (closeBrace ∉ n ∧ Char.ofNat 10 ∉ n ∧ Char.ofNat 13 ∉ n))

theorem renderTemplate_flattenPieces (lookup : String → Option (List Char)) :
    ∀ ps : List TemplatePiece, (∀ p ∈ ps, pieceOK p) →
      renderTemplate lookup (flattenPieces ps) = renderPieces lookup ps := by
  intro ps
  induction ps with
  | nil => intro _; simp [flattenPieces, renderPieces, renderTemplate]
  | cons p ps' ih =>
    intro h
    have hp : pieceOK p := h p (List.mem_cons_self p ps')
    have hps' : ∀ q ∈ ps', pieceOK q := fun q hq => h q (List.mem_cons_of_mem p hq)
    cases p with
    | lit s =>
      simp only [flattenPieces, renderPieces]
      rw [renderTemplate_lit lookup s (flattenPieces ps') hp, ih hps']
    | hole n =>
      obtain ⟨h1, h2, h3⟩ := hp
      simp only [flattenPieces, renderPieces]
      rw [renderTemplate_open lookup _ n (flattenPieces ps')
        (findClose_name n (flattenPieces ps') h1 h2 h3), ih hps']

/-- The merged replacement map of `buildPrompt`:
`{ data: dataSummary, userQuery: query, ...extraReplacements }` (a spread
entry overrides the base keys). -/
def promptReplacements (query dataSummary : List Char)
    (extra : String → Option (List Char)) : String → Option (List Char) :=
  fun k =>
    match extra k with
    | some v => some v
    | none =>
      if k = "data" then some dataSummary
      else if k = "userQuery" then some query
      else none

/-- `buildPrompt(template, query, dataSummary, extraReplacements)` from
the token-calculator script. -/
def buildPrompt (template query dataSummary : List Char)
    (extra : String → Option (List Char)) : List Char :=
  renderTemplate (promptReplacements query dataSummary extra) template

/-- C6: for every template (given by its literal runs and placeholders)
and every substitution map, `buildPrompt` performs literal string
replacement — each `{{name}}` becomes the mapped value of the trimmed
name, and every placeholder whose name is not in the map becomes the
empty string (`renderPieces` substitutes `(lookup name).getD []`).  The
function is total, so prompt building never raises an error. -/
theorem buildPrompt_substitution (query dataSummary : List Char)
    (extra : String → Option (List Char)) (ps : List TemplatePiece)
    (h : ∀ p ∈ ps, pieceOK p) :
    buildPrompt (flattenPieces ps) query dataSummary extra
      = renderPieces (promptReplacements query dataSummary extra) ps :=
  renderTemplate_flattenPieces _ ps h

/-- A small template exercising a mapped placeholder (`data`), an
unmapped one (`nope`) and literal text. -/
def demoPieces : List TemplatePiece :=
  [.lit ('A' :: ' ' :: []), .hole ('d' :: 'a' :: 't' :: 'a' :: []),
   .lit (' ' :: 'B' :: []), .hole ('n' :: 'o' :: 'p' :: 'e' :: [])]

/-- Witness for C6 at a concrete template and map. -/
theorem buildPrompt_substitution_witness :
    buildPrompt (flattenPieces demoPieces) ('Q' :: []) ('D' :: []) (fun _ => none)
      = renderPieces (promptReplacements ('Q' :: []) ('D' :: []) (fun _ => none)) demoPieces :=
  buildPrompt_substitution ('Q' :: []) ('D' :: []) (fun _ => none) demoPieces (by decide)

/-! ### Multi-chunk prompt construction (`calculateTokensForQuestion`) -/

/-- Literal run of the `rawChunk` template before `{{chunkIndex}}`. -/
def chunkLitA : List Char :=
  "You are a transportation analyst reviewing bus telemetry part ".data

/-- Literal run of the `rawChunk` template between `{{chunkIndex}}` and
`{{totalChunks}}`. -/
def chunkLitB : List Char := " of ".data

/-- Literal run of the `rawChunk` template between `{{totalChunks}}` and
`{{data}}`. -/
def chunkLitC : List Char :=
  ". The data is raw JSON with no preprocessing. Extract concrete observations (locations, timestamps, behaviors) relevant to the user question. Write in plain text with no markdown, lists, or special characters, keep your response under 120 words, note any potential safety concerns, and focus only on this chunk.\n\nRAW DATA CHUNK:\n".data

/-- Literal run of the `rawChunk` template between `{{data}}` and
`{{userQuery}}`. -/
def chunkLitD : List Char := "\n\nUSER QUESTION: ".data

/-- The `promptTemplates.rawChunk` template, as its literal runs and
placeholders. -/
def rawChunkPieces : List TemplatePiece :=
  [.lit chunkLitA, .hole "chunkIndex".data, .lit chunkLitB, .hole "totalChunks".data,
   .lit chunkLitC, .hole "data".data, .lit chunkLitD, .hole "userQuery".data]

/-- The `promptTemplates.rawChunk` template string. -/
def rawChunkTemplate : List Char := flattenPieces rawChunkPieces

/-- Literal run of the `rawFinal` template before `{{chunkCount}}`. -/
def finalLitA : List Char := "You previously reviewed ".data

/-- Literal run of the `rawFinal` template between `{{chunkCount}}` and
`{{truncatedNote}}` (the source file's bytes render the em-dash as the
three characters `‚Äî`, reproduced verbatim). -/
def finalLitB : List Char :=
  " raw telemetry chunks. Combine the analyst notes below into one cohesive answer for the user. Reference the question directly, call out specific patterns or anomalies, and keep the response under 220 words. Produce plain text only‚Äîno markdown formatting, bullets, or special characters. ".data

/-- Literal run of the `rawFinal` template between `{{truncatedNote}}`
and `{{data}}`. -/
def finalLitC : List Char := "\n\nANALYST NOTES:\n".data

/-- Literal run of the `rawFinal` template between `{{data}}` and
`{{userQuery}}`. -/
def finalLitD : List Char := "\n\nUSER QUESTION: ".data

/-- The `promptTemplates.rawFinal` template, as its literal runs and
placeholders. -/
def rawFinalPieces : List TemplatePiece :=
  [.lit finalLitA, .hole "chunkCount".data, .lit finalLitB, .hole "truncatedNote".data,
   .lit finalLitC, .hole "data".data, .lit finalLitD, .hole "userQuery".data]

/-- The `promptTemplates.rawFinal` template string. -/
def rawFinalTemplate : List Char := flattenPieces rawFinalPieces

/-- The extra replacements passed for the chunk at 0-based position
`idx - 1`: `{ chunkIndex: idx, totalChunks: total }` (JS coerces the
numbers to decimal strings during replacement). -/
def chunkExtras (idx total : Nat) : String → Option (List Char) :=
  fun k =>
    if k = "chunkIndex" then some (Nat.repr idx).data
    else if k = "totalChunks" then some (Nat.repr total).data
    else none

/-- The `chunkingResult.chunks.forEach((chunk, index) => ...)` loop of
`calculateTokensForQuestion`: the chunk prompts, built in ascending
chunk order, the one at 0-based position `index` carrying
`chunkIndex = index + 1` and `totalChunks = chunks.length`. -/
def chunkPrompts (query : List Char) (chunks : List (List Char)) : List (List Char) :=
  chunks.enum.map fun ic =>
    buildPrompt rawChunkTemplate query ic.2 (chunkExtras (ic.1 + 1) chunks.length)

/-- `mockAnalystNotes`: the per-chunk analyst notes
(`Chunk ${i + 1} analysis notes...`) joined in chunk order by blank
lines. -/
def mockAnalystNotes (chunks : List (List Char)) : List Char :=
  List.intercalate ('\n' :: '\n' :: [])
    (chunks.enum.map fun ic =>
      "Chunk ".data ++ (Nat.repr (ic.1 + 1)).data ++ " analysis notes...".data)

/-- The extra replacements of the synthesis prompt:
`{ chunkCount: chunks.length, truncatedNote: '' }`. -/
def finalExtras (count : Nat) : String → Option (List Char) :=
  fun k =>
    if k = "chunkCount" then some (Nat.repr count).data
    else if k = "truncatedNote" then some []
    else none

/-- The synthesis prompt of `calculateTokensForQuestion`. -/
def finalSynthesisPrompt (query : List Char) (chunks : List (List Char)) : List Char :=
  buildPrompt rawFinalTemplate query (mockAnalystNotes chunks) (finalExtras chunks.length)

theorem buildPrompt_rawChunk (query c : List Char) (a b : Nat) :
    buildPrompt rawChunkTemplate query c (chunkExtras a b)
      = chunkLitA ++ (Nat.repr a).data ++ chunkLitB ++ (Nat.repr b).data
          ++ chunkLitC ++ c ++ chunkLitD ++ query := by
  have hr := renderTemplate_flattenPieces
      (promptReplacements query c (chunkExtras a b)) rawChunkPieces (by decide)
  rw [buildPrompt, rawChunkTemplate, hr]
  simp only [rawChunkPieces, renderPieces]
  rw [substValue_key _ "chunkIndex" (by decide),
      substValue_key _ "totalChunks" (by decide),
      substValue_key _ "data" (by decide),
      substValue_key _ "userQuery" (by decide)]
  have e1 : promptReplacements query c (chunkExtras a b) "chunkIndex"
      = some (Nat.repr a).data := rfl
  have e2 : promptReplacements query c (chunkExtras a b) "totalChunks"
      = some (Nat.repr b).data := rfl
  have e3 : promptReplacements query c (chunkExtras a b) "data" = some c := rfl
  have e4 : promptReplacements query c (chunkExtras a b) "userQuery" = some query := rfl
  rw [e1, e2, e3, e4]
  simp [List.append_assoc]

theorem buildPrompt_rawFinal (query notes : List Char) (count : Nat) :
    buildPrompt rawFinalTemplate query notes (finalExtras count)
      = finalLitA ++ (Nat.repr count).data ++ finalLitB
          ++ finalLitC ++ notes ++ finalLitD ++ query := by
  have hr := renderTemplate_flattenPieces
      (promptReplacements query notes (finalExtras count)) rawFinalPieces (by decide)
  rw [buildPrompt, rawFinalTemplate, hr]
  simp only [rawFinalPieces, renderPieces]
  rw [substValue_key _ "chunkCount" (by decide),
      substValue_key _ "truncatedNote" (by decide),
      substValue_key _ "data" (by decide),
      substValue_key _ "userQuery" (by decide)]
  have e1 : promptReplacements query notes (finalExtras count) "chunkCount"
      = some (Nat.repr count).data := rfl
  have e2 : promptReplacements query notes (finalExtras count) "truncatedNote"
      = some [] := rfl
  have e3 : promptReplacements query notes (finalExtras count) "data" = some notes := rfl
  have e4 : promptReplacements query notes (finalExtras count) "userQuery"
      = some query := rfl
  rw [e1, e2, e3, e4]
  simp [List.append_assoc]

/-- C7: in multi-chunk mode the chunk prompts are built in ascending
chunk order — the prompt at 0-based position `i` instantiates the
`rawChunk` template with `chunkIndex = i + 1`, `totalChunks =
chunks.length`, that chunk's data, and the user query — and the
synthesis prompt instantiates the `rawFinal` template with the per-chunk
analyst notes concatenated in chunk order (`mockAnalystNotes`, notes for
chunks `1, 2, ...` joined by blank lines) together with the chunk count
and the user query. -/
theorem multiChunkPrompts_spec (query : List Char) (chunks : List (List Char)) (i : Nat)
    (hi : i < chunks.length) :
    (chunkPrompts query chunks).getD i []
      = chunkLitA ++ (Nat.repr (i + 1)).data ++ chunkLitB
          ++ (Nat.repr chunks.length).data ++ chunkLitC
          ++ chunks.getD i [] ++ chunkLitD ++ query ∧
    finalSynthesisPrompt query chunks
      = finalLitA ++ (Nat.repr chunks.length).data ++ finalLitB
          ++ finalLitC ++ mockAnalystNotes chunks ++ finalLitD ++ query := by
  constructor
  · rw [chunkPrompts, List.getD_eq_getElem?_getD, List.getElem?_map, List.getElem?_enum,
      List.getElem?_eq_getElem hi]
    simp only [Option.map_some', Option.getD_some]
    rw [buildPrompt_rawChunk]
    rw [List.getD_eq_getElem?_getD, List.getElem?_eq_getElem hi]
    rfl
  · rw [finalSynthesisPrompt, buildPrompt_rawFinal]

/-- Witness for C7: two concrete chunks and a concrete query, at chunk
position 1. -/
theorem multiChunkPrompts_spec_witness :
    (chunkPrompts ('Q' :: []) [('x' :: []), ('y' :: [])]).getD 1 []
      = chunkLitA ++ (Nat.repr 2).data ++ chunkLitB ++ (Nat.repr 2).data
          ++ chunkLitC ++ ([('x' :: []), ('y' :: [])].getD 1 []) ++ chunkLitD ++ ('Q' :: []) ∧
    finalSynthesisPrompt ('Q' :: []) [('x' :: []), ('y' :: [])]
      = finalLitA ++ (Nat.repr 2).data ++ finalLitB ++ finalLitC
          ++ mockAnalystNotes [('x' :: []), ('y' :: [])] ++ finalLitD ++ ('Q' :: []) :=
  multiChunkPrompts_spec ('Q' :: []) [('x' :: []), ('y' :: [])] 1 (by norm_num)

/-! ### HTTP server (`server.js`) -/

/-- The `prompt` field of the request body: absent (`undefined`/`null`),
present but not a string, or a string. -/
inductive PromptField where
  | missing
  | nonString
  | strVal (s : List Char)
  deriving Repr, DecidableEq

/-- The `validateRequest` middleware: reject when
`!prompt || typeof prompt !== 'string' || prompt.trim().length === 0`
(absent and non-string values both fail the first two tests; the empty
string is falsy). -/
def validateRequest : PromptField → Bool
  | .strVal s => !(s.isEmpty || (jsTrim s).isEmpty)
  | _ => false

/-- The string content of a validated prompt field. -/
def promptText : PromptField → List Char
  | .strVal s => s
  | _ => []

/-- JS `toLowerCase()`, character by character (the ASCII case fold,
which is all that arises for the cache keys here). -/
def jsToLower (s : List Char) : List Char := s.map Char.toLower

/-- `generateCacheKey = (prompt) => prompt.trim().toLowerCase()`. -/
def generateCacheKey (prompt : List Char) : List Char := jsToLower (jsTrim prompt)

/-- The data cached and returned on success (the OpenAI-style envelope
built from the stream: content, finish reason, usage). -/
structure SummaryData where
  content : List Char
  finishReason : List Char
  usage : List Char
  deriving Repr, DecidableEq

/-- The `responseCache` JS `Map`, as an association list: `set` prepends
and `get` returns the most recent binding. -/
def Cache : Type := List (List Char × SummaryData)

/-- `responseCache.get(k)` / `responseCache.has(k)`. -/
def cacheGet (c : Cache) (k : List Char) : Option SummaryData :=
  (List.find? (fun e => e.1 == k) c).map (fun e => e.2)

/-- `responseCache.set(k, v)`. -/
def cacheSet (c : Cache) (k : List Char) (v : SummaryData) : Cache := (k, v) :: c

/-- Outcome of the `streamText` call to the completion service: a
successful stream (full text, usage, finish reason) or a thrown error
with its message. -/
inductive UpstreamOutcome where
  | ok (text usage finishReason : List Char)
  | err (detail : List Char)
  deriving Repr, DecidableEq

/-- The JSON responses the endpoint can send. -/
inductive ServerResponse where
  | badRequest (error : String)
  | configError (error : String) (message : Option String)
  | serviceError (error : String) (message : Option String)
  | okJson (payload : SummaryData)
  deriving Repr, DecidableEq

/-- One request's outcome: the response sent, the cache afterwards, and
whether the completion service was called. -/
structure HandleResult where
  response : ServerResponse
  cache : Cache
  serviceCalled : Bool

/-- The `/api/generate-summary` pipeline of `server.js`:
`validateRequest` middleware, cache lookup, `AI_GATEWAY_API_KEY` check,
`streamText` call, caching of the successful envelope, and the fixed
error responses of the failure paths. -/
def handleGenerateSummary (hasApiKey : Bool) (upstream : UpstreamOutcome)
    (cache : Cache) (p : PromptField) : HandleResult :=
  if validateRequest p then
    let prompt := promptText p
    let cacheKey := generateCacheKey prompt
    match cacheGet cache cacheKey with
    | some cached => { response := .okJson cached, cache := cache, serviceCalled := false }
    | none =>
      if !hasApiKey then
        { response := .configError "API configuration error"
            (some "Please contact the administrator"),
          cache := cache, serviceCalled := false }
      else
        match upstream with
        | .ok text usage finishReason =>
          let payload : SummaryData :=
            { content := text, finishReason := finishReason, usage := usage }
          { response := .okJson payload, cache := cacheSet cache cacheKey payload,
            serviceCalled := true }
        | .err _ =>
          { response := .serviceError "Service temporarily unavailable"
              (some "Please try again later"),
            cache := cache, serviceCalled := true }
  else
    { response := .badRequest "Invalid prompt. Please provide a non-empty string.",
      cache := cache, serviceCalled := false }

/-- The `/api/generate-insight` pipeline of `server.js`: identical to
the summary endpoint except for its shorter error payloads (no `message`
field). -/
def handleGenerateInsight (hasApiKey : Bool) (upstream : UpstreamOutcome)
    (cache : Cache) (p : PromptField) : HandleResult :=
  if validateRequest p then
    let prompt := promptText p
    let cacheKey := generateCacheKey prompt
    match cacheGet cache cacheKey with
    | some cached => { response := .okJson cached, cache := cache, serviceCalled := false }
    | none =>
      if !hasApiKey then
        { response := .configError "API configuration error" none,
          cache := cache, serviceCalled := false }
      else
        match upstream with
        | .ok text usage finishReason =>
          let payload : SummaryData :=
            { content := text, finishReason := finishReason, usage := usage }
          { response := .okJson payload, cache := cacheSet cache cacheKey payload,
            serviceCalled := true }
        | .err _ =>
          { response := .serviceError "Service temporarily unavailable" none,
            cache := cache, serviceCalled := true }
  else
    { response := .badRequest "Invalid prompt. Please provide a non-empty string.",
      cache := cache, serviceCalled := false }

/-- Outcome of the legacy handler's `fetch` to the completion API: a
successful JSON payload, a non-ok HTTP response with its error body, or
a thrown error with its message. -/
inductive LegacyUpstream where
  | ok (payload : List Char)
  | httpError (status : Nat) (errorData : List Char)
  | thrown (message : List Char)
  deriving Repr, DecidableEq

/-- A response of the legacy handler: the upstream payload on success,
or an `error`/`details` JSON body with an HTTP status on failure. -/
inductive LegacyResult where
  | okJson (payload : List Char)
  | errorJson (status : Nat) (error : String) (details : Option (List Char))
  deriving Repr, DecidableEq

/-- The older `/api/generate-summary` handler (kept in the repository):
a missing key gives the configuration error with no details; a non-ok
upstream response echoes the upstream error body in `details`; a thrown
error echoes `error.message` in `details`. -/
def legacyGenerateSummary (hasApiKey : Bool) (upstream : LegacyUpstream) : LegacyResult :=
  if !hasApiKey then .errorJson 500 "API key not configured" none
  else
    match upstream with
    | .ok payload => .okJson payload
    | .httpError status errorData =>
        .errorJson status "Groq API request failed" (some errorData)
    | .thrown message =>
        .errorJson 500 "Failed to generate summary" (some message)

/-- C4: a request whose prompt is missing, not a string, or empty after
trimming is rejected by both endpoints with the fixed 400 validation
error, the cache is untouched (nothing is looked up or written) and the
completion service is never called — the rejection is surfaced
immediately, so there is nothing to retry. -/
theorem invalidPrompt_rejected (hasApiKey : Bool) (up : UpstreamOutcome) (cache : Cache)
    (p : PromptField)
    (hbad : p = .missing ∨ p = .nonString ∨ ∃ s, p = .strVal s ∧ jsTrim s = []) :
    (handleGenerateSummary hasApiKey up cache p).response
        = .badRequest "Invalid prompt. Please provide a non-empty string." ∧
    (handleGenerateSummary hasApiKey up cache p).cache = cache ∧
    (handleGenerateSummary hasApiKey up cache p).serviceCalled = false ∧
    (handleGenerateInsight hasApiKey up cache p).response
        = .badRequest "Invalid prompt. Please provide a non-empty string." ∧
    (handleGenerateInsight hasApiKey up cache p).cache = cache ∧
    (handleGenerateInsight hasApiKey up cache p).serviceCalled = false := by
  have hv : validateRequest p = false := by
    rcases hbad with rfl | rfl | ⟨s, rfl, hs⟩
    · rfl
    · rfl
    · simp [validateRequest, hs]
  simp [handleGenerateSummary, handleGenerateInsight, hv]

/-- Witness for C4: a whitespace-only prompt is rejected. -/
theorem invalidPrompt_rejected_witness :
    (handleGenerateSummary true (.ok [] [] []) [] (.strVal (' ' :: ' ' :: []))).response
        = .badRequest "Invalid prompt. Please provide a non-empty string." ∧
    (handleGenerateSummary true (.ok [] [] []) [] (.strVal (' ' :: ' ' :: []))).cache = [] ∧
    (handleGenerateSummary true (.ok [] [] []) [] (.strVal (' ' :: ' ' :: []))).serviceCalled
        = false ∧
    (handleGenerateInsight true (.ok [] [] []) [] (.strVal (' ' :: ' ' :: []))).response
        = .badRequest "Invalid prompt. Please provide a non-empty string." ∧
    (handleGenerateInsight true (.ok [] [] []) [] (.strVal (' ' :: ' ' :: []))).cache = [] ∧
    (handleGenerateInsight true (.ok [] [] []) [] (.strVal (' ' :: ' ' :: []))).serviceCalled
        = false :=
  invalidPrompt_rejected true (.ok [] [] []) [] (.strVal (' ' :: ' ' :: []))
    (Or.inr (Or.inr ⟨(' ' :: ' ' :: []), rfl, by decide⟩))

/-- C5 (counterexample): the legacy `/api/generate-summary` handler kept
in the repository surfaces the internal error message verbatim in the
`details` field of its 500 response, so two different internal failures
produce different caller-visible responses — the surfaced message is not
independent of the internal error detail. -/
theorem legacyHandler_leaks_detail :
    legacyGenerateSummary true (.thrown ('E' :: 'C' :: 'O' :: 'N' :: 'N' :: []))
      ≠ legacyGenerateSummary true (.thrown ('T' :: 'L' :: 'S' :: [])) ∧
    legacyGenerateSummary true (.thrown ('E' :: 'C' :: 'O' :: 'N' :: 'N' :: []))
      = .errorJson 500 "Failed to generate summary"
          (some ('E' :: 'C' :: 'O' :: 'N' :: 'N' :: [])) := by
  constructor
  · decide
  · rfl

/-- C5 (amended): in the current server (`server.js`), every fatal
failure path of both endpoints returns a fixed, user-safe generic
response that does not depend on the internal error detail; in
particular a missing completion-service credential yields the generic
configuration-error message, never secrets or configuration values. -/
theorem fatalFailures_generic (cache : Cache) (p : PromptField) (d : List Char)
    (up : UpstreamOutcome)
    (hvalid : validateRequest p = true)
    (hmiss : cacheGet cache (generateCacheKey (promptText p)) = none) :
    (handleGenerateSummary false up cache p).response
        = .configError "API configuration error" (some "Please contact the administrator") ∧
    (handleGenerateSummary true (.err d) cache p).response
        = .serviceError "Service temporarily unavailable" (some "Please try again later") ∧
    (handleGenerateInsight false up cache p).response
        = .configError "API configuration error" none ∧
    (handleGenerateInsight true (.err d) cache p).response
        = .serviceError "Service temporarily unavailable" none := by
  simp [handleGenerateSummary, handleGenerateInsight, hvalid, hmiss]

/-- Witness for the amended C5 at a concrete valid, uncached prompt and
a concrete internal error detail. -/
theorem fatalFailures_generic_witness :
    (handleGenerateSummary false (.ok [] [] []) [] (.strVal ('h' :: 'i' :: []))).response
        = .configError "API configuration error" (some "Please contact the administrator") ∧
    (handleGenerateSummary true (.err ('b' :: 'o' :: 'o' :: 'm' :: [])) []
        (.strVal ('h' :: 'i' :: []))).response
        = .serviceError "Service temporarily unavailable" (some "Please try again later") ∧
    (handleGenerateInsight false (.ok [] [] []) [] (.strVal ('h' :: 'i' :: []))).response
        = .configError "API configuration error" none ∧
    (handleGenerateInsight true (.err ('b' :: 'o' :: 'o' :: 'm' :: [])) []
        (.strVal ('h' :: 'i' :: []))).response
        = .serviceError "Service temporarily unavailable" none :=
  fatalFailures_generic [] (.strVal ('h' :: 'i' :: [])) ('b' :: 'o' :: 'o' :: 'm' :: [])
    (.ok [] [] []) (by decide) rfl

theorem cacheGet_cacheSet_isSome (c : Cache) (key k : List Char) (v : SummaryData)
    (h : (cacheGet c k).isSome = true) :
    (cacheGet (cacheSet c key v) k).isSome = true := by
  rw [cacheSet, cacheGet, List.find?_cons]
  by_cases hk : ((key, v).1 == k) = true
  · simp [hk]
  · rw [Bool.not_eq_true] at hk
    rw [hk]
    exact h

theorem handleGenerateSummary_cache_cases (hk : Bool) (u : UpstreamOutcome)
    (c : Cache) (q : PromptField) :
    (handleGenerateSummary hk u c q).cache = c ∨
    ∃ key v, (handleGenerateSummary hk u c q).cache = cacheSet c key v := by
  by_cases hv : validateRequest q
  · rcases hc : cacheGet c (generateCacheKey (promptText q)) with _ | cached
    · by_cases hkk : hk
      · cases u with
        | ok t us f =>
          right
          exact ⟨generateCacheKey (promptText q),
            { content := t, finishReason := f, usage := us },
            by simp [handleGenerateSummary, hv, hc, hkk]⟩
        | err d => left; simp [handleGenerateSummary, hv, hc, hkk]
      · left; simp [handleGenerateSummary, hv, hc, hkk]
    · left; simp [handleGenerateSummary, hv, hc]
  · left; simp [handleGenerateSummary, hv]

theorem handleGenerateInsight_cache_cases (hk : Bool) (u : UpstreamOutcome)
    (c : Cache) (q : PromptField) :
    (handleGenerateInsight hk u c q).cache = c ∨
    ∃ key v, (handleGenerateInsight hk u c q).cache = cacheSet c key v := by
  by_cases hv : validateRequest q
  · rcases hc : cacheGet c (generateCacheKey (promptText q)) with _ | cached
    · by_cases hkk : hk
      · cases u with
        | ok t us f =>
          right
          exact ⟨generateCacheKey (promptText q),
            { content := t, finishReason := f, usage := us },
            by simp [handleGenerateInsight, hv, hc, hkk]⟩
        | err d => left; simp [handleGenerateInsight, hv, hc, hkk]
      · left; simp [handleGenerateInsight, hv, hc, hkk]
    · left; simp [handleGenerateInsight, hv, hc]
  · left; simp [handleGenerateInsight, hv]

/-- C8: prompts that agree after trimming and lowercasing share one
cache key, so a repeat of an already-answered query is served the cached
envelope with no completion-service call and no cache change; and no
request ever removes a cache entry — the process-local `Map` only ever
gains entries, there is no eviction. -/
theorem responseCache_spec (p1 p2 : List Char) (cache : Cache) (cached : SummaryData)
    (hasApiKey : Bool) (up : UpstreamOutcome)
    (hnorm : jsToLower (jsTrim p1) = jsToLower (jsTrim p2))
    (hvalid : validateRequest (.strVal p2) = true)
    (hcached : cacheGet cache (generateCacheKey p1) = some cached) :
    generateCacheKey p1 = generateCacheKey p2 ∧
    (handleGenerateSummary hasApiKey up cache (.strVal p2)).response = .okJson cached ∧
    (handleGenerateSummary hasApiKey up cache (.strVal p2)).cache = cache ∧
    (handleGenerateSummary hasApiKey up cache (.strVal p2)).serviceCalled = false ∧
    (∀ (c : Cache) (q : PromptField) (hk : Bool) (u : UpstreamOutcome) (k : List Char),
      (cacheGet c k).isSome = true →
        (cacheGet (handleGenerateSummary hk u c q).cache k).isSome = true ∧
        (cacheGet (handleGenerateInsight hk u c q).cache k).isSome = true) := by
  have hkey : generateCacheKey p1 = generateCacheKey p2 := hnorm
  have hc2 : cacheGet cache (generateCacheKey p2) = some cached := hkey ▸ hcached
  refine ⟨hkey, ?_, ?_, ?_, ?_⟩
  · simp [handleGenerateSummary, hvalid, promptText, hc2]
  · simp [handleGenerateSummary, hvalid, promptText, hc2]
  · simp [handleGenerateSummary, hvalid, promptText, hc2]
  · intro c q hk u k hsome
    constructor
    · rcases handleGenerateSummary_cache_cases hk u c q with h | ⟨key, v, h⟩
      · rw [h]; exact hsome
      · rw [h]; exact cacheGet_cacheSet_isSome c key k v hsome
    · rcases handleGenerateInsight_cache_cases hk u c q with h | ⟨key, v, h⟩
      · rw [h]; exact hsome
      · rw [h]; exact cacheGet_cacheSet_isSome c key k v hsome

/-- Witness for C8: the prompts `"HI "` and `"hi"` normalize to the same
key; with that key's response cached, the repeat request is served from
the cache. -/
theorem responseCache_spec_witness :
    generateCacheKey ('H' :: 'I' :: ' ' :: []) = generateCacheKey ('h' :: 'i' :: []) ∧
    (handleGenerateSummary true (.ok [] [] [])
        (cacheSet ([] : Cache) (generateCacheKey ('H' :: 'I' :: ' ' :: []))
          { content := ('c' :: []), finishReason := ('s' :: []), usage := ('u' :: []) })
        (.strVal ('h' :: 'i' :: []))).response
      = .okJson { content := ('c' :: []), finishReason := ('s' :: []), usage := ('u' :: []) } :=
  have h := responseCache_spec ('H' :: 'I' :: ' ' :: []) ('h' :: 'i' :: [])
    (cacheSet ([] : Cache) (generateCacheKey ('H' :: 'I' :: ' ' :: []))
      { content := ('c' :: []), finishReason := ('s' :: []), usage := ('u' :: []) })
    { content := ('c' :: []), finishReason := ('s' :: []), usage := ('u' :: []) }
    true (.ok [] [] []) (by decide) (by decide) (by decide)
  ⟨h.1, h.2.1⟩

/-- C9: failed requests never touch the cache — on a missing credential
or an upstream/service error both endpoints leave the cache exactly as
it was, so only successful completion responses are ever stored and a
later identical query is attempted afresh rather than served a cached
failure. -/
theorem failedRequests_cache_unchanged (cache : Cache) (p : PromptField)
    (d : List Char) (up : UpstreamOutcome) :
    (handleGenerateSummary false up cache p).cache = cache ∧
    (handleGenerateSummary true (.err d) cache p).cache = cache ∧
    (handleGenerateInsight false up cache p).cache = cache ∧
    (handleGenerateInsight true (.err d) cache p).cache = cache := by
  refine ⟨?_, ?_, ?_, ?_⟩ <;>
  · by_cases hv : validateRequest p
    · rcases hc : cacheGet cache (generateCacheKey (promptText p)) with _ | cached <;>
        simp [handleGenerateSummary, handleGenerateInsight, hv, hc]
    · simp [handleGenerateSummary, handleGenerateInsight, hv]

end StingSense
